import Mathlib

/-!
Shallow embedding of `scripts/pdf_to_png.py` (a batch PDF→PNG converter that
shells out to `qlmanage` for rendering and `sips` for dimension probing),
together with theorems checking the specification's claims about it.

Modelling conventions:
* A filesystem path is its list of components (`pathlib.Path` parts); all
  paths in the claims are relative, so no anchor component is modelled.
* The ambient filesystem is an `Env` (directory test, file test, directory
  listing); the external processes are an `Ext` (result of the `qlmanage`
  run, whether its output file appears, result of the `sips` run, the fresh
  temporary directory, and an abstract content id for the rendered bitmap).
* Every observable action of the script (each `print`, each `subprocess.run`,
  `mkdir`, `shutil.move`) is recorded as an `Event` in a trace, in program
  order; `sys.exit(1)` versus falling off `main` is the returned exit code.
-/

namespace PdfToPng

/-- A filesystem path as its list of components (`pathlib.Path` parts). -/
abbrev Path := List String

/-- Rendering of a path as Python `str(Path(...))` renders a relative path. -/
def pathStr (p : Path) : String := String.intercalate "/" p

/-- Python `Path.name`: the final path component (empty for an empty path). -/
def pathName (p : Path) : String := p.getLastD ""

/-- Python `Path.parent`: drop the final component; for a single-component
relative path the parent is `Path(".")`. -/
def pathParent (p : Path) : Path := if p.length ≤ 1 then ["."] else p.dropLast

/-- Python `str.rfind('.')` on the character list of a file name: the index of
the last `'.'`, if any. -/
def rfindDot (cs : List Char) : Option Nat :=
  match cs.reverse.findIdx? (fun c => c == '.') with
  | none => none
  | some r => some (cs.length - 1 - r)

/-- Python `PurePath.suffix` of a file name: the part from the last dot on,
provided that dot is neither the first nor the last character; else `""`. -/
def pySuffix (name : String) : String :=
  match rfindDot name.data with
  | none => ""
  | some i => if 0 < i ∧ i < name.data.length - 1 then ⟨name.data.drop i⟩ else ""

/-- Python `PurePath.stem` of a file name: the name with `pySuffix` removed
(the whole name when there is no suffix). -/
def pyStem (name : String) : String :=
  match rfindDot name.data with
  | none => name
  | some i => if 0 < i ∧ i < name.data.length - 1 then ⟨name.data.take i⟩ else name

/-- Whether `pat` occurs as a contiguous sublist of `s`. -/
def listContainsSub (s pat : List Char) : Bool :=
  if pat.isPrefixOf s then true
  else
    match s with
    | [] => false
    | _ :: t => listContainsSub t pat

/-- Python `sub in s` (substring containment), on character lists. -/
def strContainsSub (s pat : String) : Bool := listContainsSub s.data pat.data

/-- Python `str.lower`, characterwise (the names compared against `".pdf"`
only involve characters whose lowercasing is characterwise). -/
def strToLower (s : String) : String := ⟨s.data.map Char.toLower⟩

/-- Python `str.strip()` with no argument: remove leading and trailing
whitespace (modelled with `Char.isWhitespace`, which covers the whitespace
occurring in the modelled outputs). -/
def pyStrip (s : String) : String :=
  ⟨((s.data.dropWhile Char.isWhitespace).reverse.dropWhile Char.isWhitespace).reverse⟩

/-- Python `str.splitlines` restricted to the line breaks that occur in the
outputs modelled here: `"\r\n"`, `"\r"`, `"\n"` (the rarer Unicode breaks
Python also recognises are not modelled). No trailing empty line is produced
when the text ends in a break, and `""` yields `[]`, as in Python. -/
def splitLinesAux : List Char → List Char → List (List Char)
  | [], acc => if acc.isEmpty then [] else [acc.reverse]
  | '\r' :: '\n' :: rest, acc => acc.reverse :: splitLinesAux rest []
  | '\r' :: rest, acc => acc.reverse :: splitLinesAux rest []
  | '\n' :: rest, acc => acc.reverse :: splitLinesAux rest []
  | c :: rest, acc => splitLinesAux rest (c :: acc)

/-- Python `str.splitlines` on a string (see `splitLinesAux`). -/
def pySplitLines (s : String) : List String :=
  (splitLinesAux s.data []).map (fun cs => ⟨cs⟩)

/-- The captured outcome of one `subprocess.run(..., capture_output=True,
text=True)` call. -/
structure RunResult where
  returncode : Int
  stdout : String
  stderr : String
deriving DecidableEq, Repr

/-- The ambient filesystem, as the script queries it. -/
structure Env where
  /-- Python `Path.is_dir`. -/
  isDir : Path → Bool
  /-- Python `Path.is_file`. -/
  isFile : Path → Bool
  /-- The entry names directly inside a directory (what `scandir` yields;
  `Path.glob` filters these by name only, regardless of entry type). -/
  listDir : Path → List String

/-- The external process world one run of the script interacts with. -/
structure Ext where
  /-- The fresh temporary directory `tempfile.TemporaryDirectory` yields. -/
  tmpdir : Path
  /-- Outcome of `qlmanage -t -s <size> -o <tmpdir> <pdf>`. -/
  qlmanage : Path → Int → RunResult
  /-- Whether `<tmpdir>/<pdf name>.png` exists after that run. -/
  qlProduces : Path → Int → Bool
  /-- Abstract content id of the bitmap `qlmanage` leaves in the temporary
  directory when it produces one. -/
  rendered : Path → Int → Nat
  /-- Outcome of `sips --getProperty pixelWidth --getProperty pixelHeight
  <png>`. -/
  sips : Path → RunResult

/-- One observable action of the script, in program order. -/
inductive Event where
  /-- A `print(text, ...)`; the flag records whether a newline ends it
  (`False` exactly for the `end=""` progress marker). -/
  | print : String → Bool → Event
  /-- A `qlmanage` invocation, with its argv. -/
  | runQl : List String → Event
  /-- A `sips` invocation, with its argv. -/
  | runSips : List String → Event
  /-- `Path.mkdir(parents=True, exist_ok=True)` on a directory. -/
  | mkdirP : Path → Event
  /-- `shutil.move(src, dst)`. -/
  | move : Path → Path → Event
deriving DecidableEq, Repr

/-- Whether an event is an external-command invocation. -/
def Event.isExternal : Event → Bool
  | .runQl _ => true
  | .runSips _ => true
  | _ => false

/-- The parsed command line (`argparse` result): `inputs` (one or more,
already split into path components), the output-directory option `-o`, the
size option `-s`
(`type=int`, default 2400 — any integer is accepted, there is no
positivity check). -/
structure Args where
  inputs : List Path
  output_dir : Option Path
  size : Int

/-- `fnmatch` of the glob pattern `*.pdf` against an entry name: `*` matches
any (possibly empty) sequence, so a name matches exactly when it ends with
the four characters `".pdf"` — case-sensitively. -/
def globMatchPdf (n : String) : Bool := ".pdf".data.isSuffixOf n.data

/-- `sorted(p.glob("*.pdf"))` from line 68: the entry names matching
`*.pdf`, sorted (Python sorts the `Path` values; with a common parent that
is exactly sorting the names), each joined onto the directory. -/
def globSortedPdf (env : Env) (p : Path) : List Path :=
  (List.insertionSort (· ≤ ·) ((env.listDir p).filter globMatchPdf)).map
    (fun n => p ++ [n])

/-- One iteration of the collection loop (lines 65–72): a directory
contributes its sorted glob; a regular file with case-insensitive suffix
`".pdf"` contributes itself; anything else prints a skip notice. -/
def discoverInput (env : Env) (p : Path) : List Path × List Event :=
  if env.isDir p then
    (globSortedPdf env p, [])
  else if env.isFile p && (strToLower (pySuffix (pathName p)) == ".pdf") then
    ([p], [])
  else
    ([], [.print ("Skipping: " ++ pathStr p ++ " (not a PDF file or directory)") true])

/-- The whole collection loop: concatenated discoveries and skip notices,
in input order. -/
def discoverAll (env : Env) (inputs : List Path) : List Path × List Event :=
  inputs.foldl
    (fun acc p =>
      let d := discoverInput env p
      (acc.1 ++ d.1, acc.2 ++ d.2))
    ([], [])

/-- `convert_pdf_to_png` (lines 22–42): run `qlmanage`; on non-zero exit
print the two error lines and return `None`; if the expected
`<name>.png` is missing from the temporary directory print an error and
return `None`; otherwise move it to `<output_dir>/<stem>.png` and return
that path. -/
def convert_pdf_to_png (ext : Ext) (pdf_path : Path) (output_dir : Path)
    (size : Int) : List Event × Option Path :=
  let result := ext.qlmanage pdf_path size
  let runEv := Event.runQl
    ["qlmanage", "-t", "-s", toString size, "-o", pathStr ext.tmpdir, pathStr pdf_path]
  if result.returncode ≠ 0 then
    ([runEv,
      .print ("  ERROR: qlmanage failed for " ++ pathName pdf_path) true,
      .print ("  stderr: " ++ pyStrip result.stderr) true], none)
  else
    let tmp_png := ext.tmpdir ++ [pathName pdf_path ++ ".png"]
    if !ext.qlProduces pdf_path size then
      ([runEv, .print ("  ERROR: expected output not found: " ++ pathStr tmp_png) true],
       none)
    else
      let output_path := output_dir ++ [pyStem (pathName pdf_path) ++ ".png"]
      ([runEv, .move tmp_png output_path], some output_path)

/-- Output-directory resolution from line 81: the `-o` directory when given,
else the PDF's own parent. -/
def outDirFor (args : Args) (pdf : Path) : Path :=
  match args.output_dir with
  | some d => d
  | none => pathParent pdf

/-- The dimension-string accumulation of lines 92–95: fold over the lines of
the `sips` stdout, appending `line.strip() + "  "` for each line mentioning
`pixelWidth` or `pixelHeight`. -/
def dimsFold (stdout : String) : String :=
  (pySplitLines stdout).foldl
    (fun dims line =>
      if strContainsSub line "pixelWidth" || strContainsSub line "pixelHeight" then
        dims ++ pyStrip line ++ "  "
      else dims)
    ""

/-- The body of the per-file loop (lines 80–96) for one PDF: resolve and
create the output directory, print the progress marker, convert, and on
success probe dimensions with `sips` and print the rest of the line. -/
def processOne (ext : Ext) (args : Args) (pdf : Path) : List Event × Option Path :=
  match convert_pdf_to_png ext pdf (outDirFor args pdf) args.size with
  | (cev, none) =>
      ([.mkdirP (outDirFor args pdf), .print ("  " ++ pathName pdf ++ " -> ") false]
        ++ cev, none)
  | (cev, some r) =>
      ([.mkdirP (outDirFor args pdf), .print ("  " ++ pathName pdf ++ " -> ") false]
        ++ cev
        ++ [.runSips ["sips", "--getProperty", "pixelWidth", "--getProperty",
              "pixelHeight", pathStr r],
            .print (pathName r ++ "  (" ++ pyStrip (dimsFold (ext.sips r).stdout) ++ ")") true],
       some r)

/-- `main` (lines 45–98): discovery, the empty check with `sys.exit(1)`, the
header line, the per-file loop, the completion notice. The result is the
event trace and the process exit code. -/
def mainRun (env : Env) (ext : Ext) (args : Args) : List Event × Int :=
  let disc := discoverAll env args.inputs
  let pdf_files := disc.1
  if pdf_files.isEmpty then
    (disc.2 ++ [.print "No PDF files found." true], 1)
  else
    let header := Event.print
      ("Found " ++ toString pdf_files.length ++ " PDF(s) to convert (max size: "
        ++ toString args.size ++ "px)\n") true
    let body := (pdf_files.map (fun pdf => (processOne ext args pdf).1)).flatten
    (disc.2 ++ [header] ++ body ++ [.print "\nDone." true], 0)

/-! ### Derived observation functions -/

/-- The lines of the `sips` stdout that mention `pixelWidth` or
`pixelHeight` — the lines `dimsFold` accumulates. -/
def matchingLines (stdout : String) : List String :=
  (pySplitLines stdout).filter
    (fun line => strContainsSub line "pixelWidth" || strContainsSub line "pixelHeight")

/-- The progress markers of a trace: the texts of the `end=""` prints (line
84 is the only `print` with `end=""` in the script). -/
def reportMarks (evs : List Event) : List String :=
  evs.filterMap (fun e =>
    match e with
    | .print s false => some s
    | _ => none)

/-- How many `qlmanage` invocations (conversion attempts) a trace holds. -/
def countQl (evs : List Event) : Nat :=
  (evs.filter (fun e =>
    match e with
    | .runQl _ => true
    | _ => false)).length

/-- The text a trace writes to stdout: each printed string, a newline after
those not printed with `end=""`. -/
def printedText (evs : List Event) : String :=
  evs.foldl
    (fun acc e =>
      match e with
      | .print s nl => acc ++ s ++ (if nl then "\n" else "")
      | _ => acc)
    ""

/-- The stdout of a trace, split into its lines. -/
def renderedLines (evs : List Event) : List String := pySplitLines (printedText evs)

/-- Whether `s` starts with `pre` (for talking about line shapes). -/
def strStartsWith (s pre : String) : Bool := pre.data.isPrefixOf s.data

/-- File contents by path: an abstract content id per existing file. -/
def Fs := Path → Option Nat

/-- The effect of one `convert_pdf_to_png` call on file contents: when
`qlmanage` exits 0 and produces its output, the rendered bitmap appears at
`<tmpdir>/<name>.png` inside the fresh temporary directory, and
`shutil.move` then renames it onto `<output_dir>/<stem>.png`, replacing
whatever file was there; on either failure branch no file is touched. -/
def applyConvert (ext : Ext) (pdf od : Path) (size : Int) (fs : Fs) : Fs :=
  if (ext.qlmanage pdf size).returncode ≠ 0 then fs
  else if !ext.qlProduces pdf size then fs
  else
    let tmp := ext.tmpdir ++ [pathName pdf ++ ".png"]
    let out := od ++ [pyStem (pathName pdf) ++ ".png"]
    let fs1 : Fs := fun q => if q = tmp then some (ext.rendered pdf size) else fs q
    fun q => if q = out then fs1 tmp else if q = tmp then none else fs1 q

/-! ### Concrete fixtures used in counterexamples and witnesses -/

/-- The spec's own worked example: a directory `Figures/` holding `a.pdf`,
`b.PDF` and `notes.txt`. -/
def envC1 : Env where
  isDir := fun p => p == ["Figures"]
  isFile := fun p =>
    p == ["Figures", "a.pdf"] || p == ["Figures", "b.PDF"] || p == ["Figures", "notes.txt"]
  listDir := fun p => if p == ["Figures"] then ["a.pdf", "b.PDF", "notes.txt"] else []

/-- A filesystem holding exactly one regular file `a.pdf`. -/
def envOne : Env where
  isDir := fun _ => false
  isFile := fun p => p == ["a.pdf"]
  listDir := fun _ => []

/-- A filesystem in which nothing exists. -/
def envNone : Env where
  isDir := fun _ => false
  isFile := fun _ => false
  listDir := fun _ => []

/-- An external world in which both commands succeed and `sips` reports a
width and a height. -/
def extOk : Ext where
  tmpdir := ["tmpd"]
  qlmanage := fun _ _ => ⟨0, "", ""⟩
  qlProduces := fun _ _ => true
  rendered := fun _ _ => 1
  sips := fun _ => ⟨0, "/out/a.png\n  pixelWidth: 100\n  pixelHeight: 50", ""⟩

/-- An external world in which `qlmanage` exits 2 with diagnostic text. -/
def extFail : Ext where
  tmpdir := ["tmpd"]
  qlmanage := fun _ _ => ⟨2, "", "  boom \n"⟩
  qlProduces := fun _ _ => false
  rendered := fun _ _ => 0
  sips := fun _ => ⟨0, "", ""⟩

/-- An external world in which `qlmanage` exits 0 but leaves no output
file. -/
def extMiss : Ext where
  tmpdir := ["tmpd"]
  qlmanage := fun _ _ => ⟨0, "", ""⟩
  qlProduces := fun _ _ => false
  rendered := fun _ _ => 0
  sips := fun _ => ⟨0, "", ""⟩

/-- An external world in which the render succeeds but the `sips` probe
exits 1 — while still printing a `pixelWidth` line on stdout. -/
def extC6 : Ext where
  tmpdir := ["tmpd"]
  qlmanage := fun _ _ => ⟨0, "", ""⟩
  qlProduces := fun _ _ => true
  rendered := fun _ _ => 1
  sips := fun _ => ⟨1, "pixelWidth: 5", ""⟩

/-- `extOk` rendering a different bitmap (content id 2), for the
second-run-overwrites-first statement. -/
def extOk2 : Ext where
  tmpdir := ["tmpd2"]
  qlmanage := fun _ _ => ⟨0, "", ""⟩
  qlProduces := fun _ _ => true
  rendered := fun _ _ => 2
  sips := fun _ => ⟨0, "", ""⟩

/-- Command line `pdf_to_png.py a.pdf`. -/
def argsA : Args := ⟨[["a.pdf"]], none, 2400⟩

/-- Command line `pdf_to_png.py a.pdf -o out -s -3`. -/
def argsNeg : Args := ⟨[["a.pdf"]], some ["out"], -3⟩

/-- Command line `pdf_to_png.py nope`, naming a non-existent path. -/
def argsNope : Args := ⟨[["nope"]], none, 2400⟩

/-- Command line `pdf_to_png.py a.pdf a.pdf`: the same PDF supplied twice. -/
def argsDup : Args := ⟨[["a.pdf"], ["a.pdf"]], none, 2400⟩

/-- Command line `pdf_to_png.py a.pdf -s 0`. -/
def argsZero : Args := ⟨[["a.pdf"]], none, 0⟩

/-! ### Helper lemmas -/

theorem pathName_append_single (d : Path) (n : String) : pathName (d ++ [n]) = n :=
  List.getLastD_concat _ _ _

theorem discoverAll_eq (env : Env) (inputs : List Path) :
    discoverAll env inputs =
      ((inputs.map (fun p => (discoverInput env p).1)).flatten,
       (inputs.map (fun p => (discoverInput env p).2)).flatten) := by
  have go : ∀ (l : List Path) (acc : List Path × List Event),
      l.foldl
        (fun acc p =>
          let d := discoverInput env p
          (acc.1 ++ d.1, acc.2 ++ d.2)) acc
        = (acc.1 ++ (l.map (fun p => (discoverInput env p).1)).flatten,
           acc.2 ++ (l.map (fun p => (discoverInput env p).2)).flatten) := by
    intro l
    induction l with
    | nil => intro acc; simp
    | cons a t ih => intro acc; simp [ih]
  simpa [discoverAll] using go inputs ([], [])

theorem foldl_filter_if {α β : Type} (p : α → Bool) (g : β → α → β) (i : β)
    (l : List α) :
    (l.filter p).foldl g i = l.foldl (fun x y => if p y then g x y else x) i := by
  induction l generalizing i with
  | nil => rfl
  | cons a t ih => by_cases h : p a <;> simp [h, ih]

/-! ### C1: discovery from a directory argument -/

/-- C1 counterexample: on the spec's own example directory the code discovers
only `Figures/a.pdf` — `glob("*.pdf")` is case-sensitive, so `b.PDF` is not
matched, refuting "the set of discovered PDF paths equals the set of files
... whose extension matches `.pdf` case-insensitively (e.g. both a.pdf and
b.PDF)". -/
theorem C1_directory_discovery_counterexample :
    (discoverAll envC1 [["Figures"]]).1 = [["Figures", "a.pdf"]] ∧
    ["Figures", "b.PDF"] ∉ (discoverAll envC1 [["Figures"]]).1 ∧
    envC1.isFile ["Figures", "b.PDF"] = true ∧
    strToLower (pySuffix (pathName ["Figures", "b.PDF"])) = ".pdf" := by
  decide

/-- C1 (amended): for every directory argument, the discovered paths are
exactly the entries directly inside it whose name ends in `".pdf"`
case-sensitively, each kept with its original name joined onto the
directory, sorted lexicographically by filename, with multiplicity
preserved. -/
theorem C1_directory_discovery_amended (env : Env) (d : Path)
    (hdir : env.isDir d = true) (q : Path) :
    (q ∈ (discoverInput env d).1 ↔
      ∃ n, n ∈ env.listDir d ∧ globMatchPdf n = true ∧ q = d ++ [n]) ∧
    List.Pairwise (fun a b : Path => pathName a ≤ pathName b) (discoverInput env d).1 ∧
    (discoverInput env d).1.length = ((env.listDir d).filter globMatchPdf).length := by
  have hres : (discoverInput env d).1 =
      (List.insertionSort (· ≤ ·) ((env.listDir d).filter globMatchPdf)).map
        (fun n => d ++ [n]) := by
    simp [discoverInput, hdir, globSortedPdf]
  refine ⟨?_, ?_, ?_⟩
  · rw [hres]
    simp only [List.mem_map, List.mem_insertionSort, List.mem_filter]
    constructor
    · rintro ⟨n, ⟨hn, hm⟩, rfl⟩
      exact ⟨n, hn, hm, rfl⟩
    · rintro ⟨n, hn, hm, rfl⟩
      exact ⟨n, ⟨hn, hm⟩, rfl⟩
  · rw [hres, List.pairwise_map]
    have hs := List.sorted_insertionSort (· ≤ ·)
      ((env.listDir d).filter globMatchPdf)
    refine hs.imp ?_
    intro a b hab
    rw [pathName_append_single, pathName_append_single]
    exact hab
  · rw [hres]
    simp [List.length_insertionSort]

/-- C1 amended-claim witness at the spec's example directory. -/
theorem C1_directory_discovery_witness :
    envC1.isDir ["Figures"] = true ∧
    ((["Figures", "a.pdf"] ∈ (discoverInput envC1 ["Figures"]).1 ↔
        ∃ n, n ∈ envC1.listDir ["Figures"] ∧ globMatchPdf n = true ∧
          ["Figures", "a.pdf"] = ["Figures"] ++ [n]) ∧
      List.Pairwise (fun a b : Path => pathName a ≤ pathName b)
        (discoverInput envC1 ["Figures"]).1 ∧
      (discoverInput envC1 ["Figures"]).1.length =
        ((envC1.listDir ["Figures"]).filter globMatchPdf).length) :=
  ⟨by decide, C1_directory_discovery_amended envC1 ["Figures"] (by decide) ["Figures", "a.pdf"]⟩

/-- With at least one PDF discovered, the trace of `main` is: the skip
notices, the header line, the per-file blocks in discovery order, the
completion notice. -/
theorem mainRun_trace (env : Env) (ext : Ext) (args : Args)
    (h : (discoverAll env args.inputs).1 ≠ []) :
    (mainRun env ext args).1 =
      (discoverAll env args.inputs).2
        ++ [Event.print ("Found " ++ toString (discoverAll env args.inputs).1.length
              ++ " PDF(s) to convert (max size: " ++ toString args.size ++ "px)\n") true]
        ++ ((discoverAll env args.inputs).1.map
              (fun pdf => (processOne ext args pdf).1)).flatten
        ++ [Event.print "\nDone." true] := by
  have hne : (discoverAll env args.inputs).1.isEmpty = false := by
    simpa [List.isEmpty_iff] using h
  simp [mainRun, hne]

/-- Each discovered PDF's per-file block appears contiguously inside the
trace of `main`. -/
theorem processOne_block_occurs (env : Env) (ext : Ext) (args : Args) (pdf : Path)
    (h : pdf ∈ (discoverAll env args.inputs).1) :
    ∃ pre post,
      (mainRun env ext args).1 = pre ++ (processOne ext args pdf).1 ++ post := by
  have hne : (discoverAll env args.inputs).1 ≠ [] := by
    intro hc; rw [hc] at h; cases h
  obtain ⟨s, t, hst⟩ :=
    List.infix_of_mem_flatten
      (List.mem_map_of_mem (fun pdf => (processOne ext args pdf).1) h)
  refine ⟨(discoverAll env args.inputs).2
      ++ [Event.print ("Found " ++ toString (discoverAll env args.inputs).1.length
            ++ " PDF(s) to convert (max size: " ++ toString args.size ++ "px)\n") true]
      ++ s,
    t ++ [Event.print "\nDone." true], ?_⟩
  rw [mainRun_trace env ext args hne, ← hst]
  simp

/-! ### C2: failure of the single-file conversion step -/

/-- C2: the conversion of one file fails exactly when `qlmanage` exits
non-zero or the expected `<name>.png` is absent; on a non-zero exit the two
error lines (the second carrying the captured stderr) are printed, on a
missing output the expected-output error line is printed; a failure returns
no output path and performs no move; and every discovered PDF's block still
appears in the run's trace, so processing continues past failures. -/
theorem C2_failure_semantics (env : Env) (ext : Ext) (args : Args)
    (pdf od : Path) (size : Int) :
    ((convert_pdf_to_png ext pdf od size).2 = none ↔
      (ext.qlmanage pdf size).returncode ≠ 0 ∨ ext.qlProduces pdf size = false) ∧
    ((ext.qlmanage pdf size).returncode ≠ 0 →
      Event.print ("  ERROR: qlmanage failed for " ++ pathName pdf) true
          ∈ (convert_pdf_to_png ext pdf od size).1 ∧
      Event.print ("  stderr: " ++ pyStrip (ext.qlmanage pdf size).stderr) true
          ∈ (convert_pdf_to_png ext pdf od size).1) ∧
    ((ext.qlmanage pdf size).returncode = 0 → ext.qlProduces pdf size = false →
      Event.print ("  ERROR: expected output not found: "
            ++ pathStr (ext.tmpdir ++ [pathName pdf ++ ".png"])) true
        ∈ (convert_pdf_to_png ext pdf od size).1) ∧
    ((convert_pdf_to_png ext pdf od size).2 = none →
      ∀ s d, Event.move s d ∉ (convert_pdf_to_png ext pdf od size).1) ∧
    (pdf ∈ (discoverAll env args.inputs).1 →
      ∃ pre post,
        (mainRun env ext args).1 = pre ++ (processOne ext args pdf).1 ++ post) := by
  refine ⟨?_, ?_, ?_, ?_, processOne_block_occurs env ext args pdf⟩ <;>
    by_cases h1 : (ext.qlmanage pdf size).returncode = 0 <;>
    by_cases h2 : ext.qlProduces pdf size = true <;>
    simp_all [convert_pdf_to_png]

/-- C2 witness: a concrete failing run (`qlmanage` exits 2 with stderr
"boom") for `pdf_to_png.py a.pdf`. -/
theorem C2_failure_semantics_witness :
    ((convert_pdf_to_png extFail ["a.pdf"] ["."] 2400).2 = none ↔
      (extFail.qlmanage ["a.pdf"] 2400).returncode ≠ 0 ∨
        extFail.qlProduces ["a.pdf"] 2400 = false) ∧
    Event.print ("  stderr: " ++ pyStrip (extFail.qlmanage ["a.pdf"] 2400).stderr) true
      ∈ (convert_pdf_to_png extFail ["a.pdf"] ["."] 2400).1 ∧
    (∀ s d, Event.move s d ∉ (convert_pdf_to_png extFail ["a.pdf"] ["."] 2400).1) ∧
    ∃ pre post,
      (mainRun envOne extFail argsA).1
        = pre ++ (processOne extFail argsA ["a.pdf"]).1 ++ post := by
  obtain ⟨hiff, herr, -, hnomove, hcont⟩ :=
    C2_failure_semantics envOne extFail argsA ["a.pdf"] ["."] 2400
  exact ⟨hiff, (herr (by decide)).2, hnomove (by decide), hcont (by decide)⟩

/-- `rfind('.')` on a name that ends in the four characters `".pdf"` finds
the dot of that suffix. -/
theorem rfindDot_append_pdf (cs : List Char) :
    rfindDot (cs ++ ['.', 'p', 'd', 'f']) = some cs.length := by
  unfold rfindDot
  have hrev : (cs ++ ['.', 'p', 'd', 'f']).reverse
      = 'f' :: 'd' :: 'p' :: '.' :: cs.reverse := by simp
  rw [hrev]
  have hfind : List.findIdx? (fun c => c == '.')
      ('f' :: 'd' :: 'p' :: '.' :: cs.reverse) = some 3 := rfl
  rw [hfind]
  simp

/-- The stem of `<s>.pdf` is `s` for every non-empty `s` — "the source
filename without its `.pdf` extension". -/
theorem pyStem_append_pdf (s : String) (h : s ≠ "") : pyStem (s ++ ".pdf") = s := by
  have hd : (s ++ ".pdf").data = s.data ++ ['.', 'p', 'd', 'f'] := by
    rw [String.data_append]
  have h0 : 0 < s.data.length := by
    cases s with
    | mk cs =>
        cases cs with
        | nil => exact absurd rfl h
        | cons a t => simp
  simp only [pyStem, hd, rfindDot_append_pdf]
  rw [if_pos]
  · rw [List.take_left]
  · constructor
    · exact h0
    · simp only [List.length_append, List.length_cons, List.length_nil]
      omega

/-! ### C3: output placement on success -/

/-- C3: the output directory is the `-o` directory when given, else the
PDF's own parent; a successful conversion's returned path is
`<output_directory>/<stem>.png`, reached by the single `shutil.move` out of
the temporary directory; the per-file block creates the output directory
(with parents) as its very first action, before everything else including
the move; and the stem of `<s>.pdf` is `s` — the filename without its
`".pdf"` extension. -/
theorem C3_output_placement (ext : Ext) (args : Args) (pdf : Path) :
    (∀ d, args.output_dir = some d → outDirFor args pdf = d) ∧
    (args.output_dir = none → outDirFor args pdf = pathParent pdf) ∧
    (∀ out, (convert_pdf_to_png ext pdf (outDirFor args pdf) args.size).2 = some out →
      out = outDirFor args pdf ++ [pyStem (pathName pdf) ++ ".png"] ∧
      Event.move (ext.tmpdir ++ [pathName pdf ++ ".png"]) out
          ∈ (convert_pdf_to_png ext pdf (outDirFor args pdf) args.size).1 ∧
      (processOne ext args pdf).2 = some out ∧
      (processOne ext args pdf).1.head? = some (.mkdirP (outDirFor args pdf))) ∧
    (∀ s : String, s ≠ "" → pyStem (s ++ ".pdf") = s) := by
  refine ⟨?_, ?_, ?_, pyStem_append_pdf⟩
  · intro d hd; simp [outDirFor, hd]
  · intro hd; simp [outDirFor, hd]
  · intro out hout
    by_cases h1 : (ext.qlmanage pdf args.size).returncode = 0 <;>
      by_cases h2 : ext.qlProduces pdf args.size = true <;>
      simp_all [convert_pdf_to_png, processOne]

/-- C3 witness: `pdf_to_png.py a.pdf -o out -s -3` with a succeeding render
writes `out/a.png` and returns that path. -/
theorem C3_output_placement_witness :
    ["out", "a.png"] = outDirFor argsNeg ["a.pdf"] ++ [pyStem (pathName ["a.pdf"]) ++ ".png"] ∧
    Event.move (extOk.tmpdir ++ [pathName ["a.pdf"] ++ ".png"]) ["out", "a.png"]
        ∈ (convert_pdf_to_png extOk ["a.pdf"] (outDirFor argsNeg ["a.pdf"]) argsNeg.size).1 ∧
    (processOne extOk argsNeg ["a.pdf"]).2 = some ["out", "a.png"] ∧
    (processOne extOk argsNeg ["a.pdf"]).1.head? = some (.mkdirP (outDirFor argsNeg ["a.pdf"])) :=
  (C3_output_placement extOk argsNeg ["a.pdf"]).2.2.1 ["out", "a.png"] (by decide)

/-! ### C4: the zero-files case -/

/-- Every event the collection loop emits is a completed `print` (a skip
notice): it runs no external command. -/
theorem discover_events_print (env : Env) (inputs : List Path) :
    ∀ e ∈ (discoverAll env inputs).2, ∃ s, e = .print s true := by
  rw [discoverAll_eq]
  simp only [List.mem_flatten, List.mem_map]
  rintro e ⟨l, ⟨p, hp, rfl⟩, he⟩
  by_cases h1 : env.isDir p
  · simp [discoverInput, h1] at he
  · by_cases h2 : env.isFile p && (strToLower (pySuffix (pathName p)) == ".pdf")
    · simp [discoverInput, h1, h2] at he
    · simp [discoverInput, h1, h2] at he
      exact ⟨_, he⟩

/-- A trace with no external events has no `qlmanage` invocations. -/
theorem countQl_eq_zero (evs : List Event)
    (h : ∀ e ∈ evs, e.isExternal = false) : countQl evs = 0 := by
  unfold countQl
  rw [List.length_eq_zero, List.filter_eq_nil_iff]
  intro e he
  have := h e he
  cases e <;> simp_all [Event.isExternal]

/-- C4: with zero PDFs discovered, the run prints "No PDF files found.",
exits 1, makes zero conversion attempts and invokes no external command at
all. -/
theorem C4_no_pdfs (env : Env) (ext : Ext) (args : Args)
    (h : (discoverAll env args.inputs).1 = []) :
    (mainRun env ext args).2 = 1 ∧
    Event.print "No PDF files found." true ∈ (mainRun env ext args).1 ∧
    countQl (mainRun env ext args).1 = 0 ∧
    (∀ e ∈ (mainRun env ext args).1, e.isExternal = false) := by
  have hT : (mainRun env ext args).1 =
      (discoverAll env args.inputs).2 ++ [.print "No PDF files found." true] := by
    simp [mainRun, h]
  have hnon : ∀ e ∈ (mainRun env ext args).1, e.isExternal = false := by
    rw [hT]
    intro e he
    rcases List.mem_append.mp he with h1 | h1
    · obtain ⟨s, rfl⟩ := discover_events_print env args.inputs e h1
      rfl
    · simp at h1; subst h1; rfl
  exact ⟨by simp [mainRun, h], by rw [hT]; simp, countQl_eq_zero _ hnon, hnon⟩

/-- C4 witness: `pdf_to_png.py nope` on a filesystem where `nope` does not
exist. -/
theorem C4_no_pdfs_witness :
    (mainRun envNone extOk argsNope).2 = 1 ∧
    Event.print "No PDF files found." true ∈ (mainRun envNone extOk argsNope).1 ∧
    countQl (mainRun envNone extOk argsNope).1 = 0 ∧
    (∀ e ∈ (mainRun envNone extOk argsNope).1, e.isExternal = false) :=
  C4_no_pdfs envNone extOk argsNope (by decide)

/-! ### C5: exit status of a non-empty run -/

/-- C5: once at least one PDF is discovered the exit status is 0 whatever
the per-file conversions do; a non-zero exit happens only in the zero-files
case; and the exit status never depends on the external world at all — no
single file's failure propagates into the overall run. -/
theorem C5_exit_status (env : Env) (ext : Ext) (args : Args) :
    ((discoverAll env args.inputs).1 ≠ [] → (mainRun env ext args).2 = 0) ∧
    ((mainRun env ext args).2 ≠ 0 → (discoverAll env args.inputs).1 = []) ∧
    (∀ ext' : Ext, (mainRun env ext args).2 = (mainRun env ext' args).2) := by
  have hexit : ∀ e : Ext,
      (mainRun env e args).2 =
        if (discoverAll env args.inputs).1.isEmpty then 1 else 0 := by
    intro e
    by_cases hb : (discoverAll env args.inputs).1.isEmpty <;> simp [mainRun, hb]
  refine ⟨?_, ?_, fun ext' => by rw [hexit ext, hexit ext']⟩
  · intro h
    rw [hexit]
    simp [List.isEmpty_iff, h]
  · intro h
    by_contra hne
    rw [hexit] at h
    simp [List.isEmpty_iff, hne] at h

/-- C5 witness: a single discovered PDF whose conversion fails (`qlmanage`
exits 2) still ends the run with exit status 0, equal to a fully successful
run's. -/
theorem C5_exit_status_witness :
    (discoverAll envOne argsA.inputs).1 ≠ [] ∧
    (mainRun envOne extFail argsA).2 = 0 ∧
    (mainRun envOne extFail argsA).2 = (mainRun envOne extOk argsA).2 :=
  ⟨by decide, (C5_exit_status envOne extFail argsA).1 (by decide),
    (C5_exit_status envOne extFail argsA).2.2 extOk⟩

/-! ### C6: the dimension probe -/

/-- The exit code of `main` is determined by discovery alone. -/
theorem mainRun_exit_eq (env : Env) (args : Args) (e : Ext) :
    (mainRun env e args).2 =
      if (discoverAll env args.inputs).1.isEmpty then 1 else 0 := by
  by_cases hb : (discoverAll env args.inputs).1.isEmpty <;> simp [mainRun, hb]

/-- C6 counterexample: a `sips` probe that exits 1 while still printing a
`pixelWidth` line on stdout yields a non-empty dimension string — the exit
status is never consulted, refuting "if the metadata command fails
(non-zero status) ... the dimension string is empty". -/
theorem C6_probe_counterexample :
    (extC6.sips [".", "a.png"]).returncode ≠ 0 ∧
    dimsFold (extC6.sips [".", "a.png"]).stdout ≠ "" ∧
    pyStrip (dimsFold (extC6.sips [".", "a.png"]).stdout) = "pixelWidth: 5" ∧
    Event.print "a.png  (pixelWidth: 5)" true ∈ (processOne extC6 argsA ["a.pdf"]).1 := by
  decide

/-- C6 (amended): the dimension string is computed from the probe's stdout
alone — the concatenation, in output order, of the trimmed lines mentioning
`pixelWidth` or `pixelHeight`; it is empty whenever no line matches
(regardless of exit status, which is never consulted); the probe never
changes the run's exit code; and on success the report line carries exactly
that string, trimmed once more. -/
theorem C6_probe_amended (env : Env) (ext : Ext) (args : Args)
    (s' : Path → RunResult) (out : RunResult) (pdf r : Path) :
    (dimsFold out.stdout =
      (matchingLines out.stdout).foldl (fun acc l => acc ++ pyStrip l ++ "  ") "") ∧
    (matchingLines out.stdout = [] → dimsFold out.stdout = "") ∧
    ((mainRun env ⟨ext.tmpdir, ext.qlmanage, ext.qlProduces, ext.rendered, s'⟩ args).2 =
      (mainRun env ext args).2) ∧
    ((processOne ext args pdf).2 = some r →
      Event.print (pathName r ++ "  (" ++ pyStrip (dimsFold (ext.sips r).stdout) ++ ")") true
        ∈ (processOne ext args pdf).1) := by
  have hchar : dimsFold out.stdout =
      (matchingLines out.stdout).foldl (fun acc l => acc ++ pyStrip l ++ "  ") "" := by
    unfold dimsFold matchingLines
    exact (foldl_filter_if _ _ _ _).symm
  refine ⟨hchar, ?_, ?_, ?_⟩
  · intro hm
    rw [hchar, hm]
    rfl
  · rw [mainRun_exit_eq, mainRun_exit_eq]
  · intro hr
    cases hc : convert_pdf_to_png ext pdf (outDirFor args pdf) args.size with
    | mk cev res =>
        cases res with
        | none => simp [processOne, hc] at hr
        | some r' =>
            simp only [processOne, hc] at hr ⊢
            obtain rfl : r' = r := Option.some.inj hr
            simp

/-- C6 amended-claim witness on the concrete exit-1 probe. -/
theorem C6_probe_amended_witness :
    Event.print (pathName [".", "a.png"] ++ "  ("
        ++ pyStrip (dimsFold (extC6.sips [".", "a.png"]).stdout) ++ ")") true
      ∈ (processOne extC6 argsA ["a.pdf"]).1 :=
  (C6_probe_amended envOne extC6 argsA extC6.sips ⟨1, "pixelWidth: 5", ""⟩
    ["a.pdf"] [".", "a.png"]).2.2.2 (by decide)

/-! ### C7: one attempt and one progress marker per discovered PDF -/

theorem reportMarks_append (a b : List Event) :
    reportMarks (a ++ b) = reportMarks a ++ reportMarks b :=
  List.filterMap_append ..

theorem countQl_append (a b : List Event) :
    countQl (a ++ b) = countQl a + countQl b := by
  simp [countQl, List.filter_append]

/-- The conversion step itself prints no progress marker (all its prints
end in a newline) and runs `qlmanage` exactly once. -/
theorem convert_marks_and_count (ext : Ext) (pdf od : Path) (size : Int) :
    reportMarks (convert_pdf_to_png ext pdf od size).1 = [] ∧
    countQl (convert_pdf_to_png ext pdf od size).1 = 1 := by
  by_cases h1 : (ext.qlmanage pdf size).returncode = 0 <;>
    by_cases h2 : ext.qlProduces pdf size = true <;>
    simp_all [convert_pdf_to_png, reportMarks, countQl]

/-- Each per-file block prints exactly the one progress marker
`"  <name> -> "` and makes exactly one conversion attempt. -/
theorem processOne_marks_and_count (ext : Ext) (args : Args) (pdf : Path) :
    reportMarks (processOne ext args pdf).1 = ["  " ++ pathName pdf ++ " -> "] ∧
    countQl (processOne ext args pdf).1 = 1 := by
  obtain ⟨hm, hc⟩ :=
    convert_marks_and_count ext pdf (outDirFor args pdf) args.size
  cases hconv : convert_pdf_to_png ext pdf (outDirFor args pdf) args.size with
  | mk cev res =>
      rw [hconv] at hm hc
      cases res <;>
        simp_all [processOne, hconv, reportMarks_append, countQl_append,
          reportMarks, countQl]

/-- The skip notices print no progress marker and run nothing. -/
theorem discover_marks_and_count (env : Env) (inputs : List Path) :
    reportMarks (discoverAll env inputs).2 = [] ∧
    countQl (discoverAll env inputs).2 = 0 := by
  have hp := discover_events_print env inputs
  constructor
  · unfold reportMarks
    rw [List.filterMap_eq_nil_iff]
    intro e he
    obtain ⟨s, rfl⟩ := hp e he
    rfl
  · apply countQl_eq_zero
    intro e he
    obtain ⟨s, rfl⟩ := hp e he
    rfl

/-- C7 counterexample: in a concrete successful run of `pdf_to_png.py
a.pdf`, no printed line begins with `"a.pdf -> "` — the progress line is
indented by two spaces — so "exactly one ... line beginning with
`<pdf-filename> -> `" fails as stated; the one progress marker actually
printed is `"  a.pdf -> "`. -/
theorem C7_reporting_counterexample :
    ((renderedLines (mainRun envOne extOk argsA).1).filter
        (fun l => strStartsWith l "a.pdf -> ")).length = 0 ∧
    ((renderedLines (mainRun envOne extOk argsA).1).filter
        (fun l => strStartsWith l "  a.pdf -> ")).length = 1 ∧
    reportMarks (mainRun envOne extOk argsA).1 = ["  a.pdf -> "] ∧
    ["a.pdf"] ∈ (discoverAll envOne argsA.inputs).1 := by
  decide

/-- C7 (amended): for every discovered PDF path, exactly one conversion
attempt is made and exactly one progress marker — `"  <pdf-filename> -> "`,
the filename behind a two-space indent — is printed, regardless of success
or failure; no deduplication is performed, so the list of markers is
exactly the discovery-ordered list of discovered paths' names (duplicates
reported once per occurrence), and the number of `qlmanage` invocations is
the number of discovered paths. -/
theorem C7_per_file_reporting (env : Env) (ext : Ext) (args : Args)
    (h : (discoverAll env args.inputs).1 ≠ []) :
    reportMarks (mainRun env ext args).1 =
      (discoverAll env args.inputs).1.map (fun p => "  " ++ pathName p ++ " -> ") ∧
    countQl (mainRun env ext args).1 = (discoverAll env args.inputs).1.length := by
  have hbody : ∀ files : List Path,
      reportMarks ((files.map (fun pdf => (processOne ext args pdf).1)).flatten) =
        files.map (fun p => "  " ++ pathName p ++ " -> ") ∧
      countQl ((files.map (fun pdf => (processOne ext args pdf).1)).flatten) =
        files.length := by
    intro files
    induction files with
    | nil => exact ⟨rfl, rfl⟩
    | cons a t ih =>
        obtain ⟨hm, hc⟩ := processOne_marks_and_count ext args a
        refine ⟨?_, ?_⟩
        · simp [reportMarks_append, hm, ih.1]
        · simp [countQl_append, hc, ih.2]
          omega
  rw [mainRun_trace env ext args h]
  obtain ⟨hdm, hdc⟩ := discover_marks_and_count env args.inputs
  obtain ⟨hbm, hbc⟩ := hbody (discoverAll env args.inputs).1
  constructor
  · rw [reportMarks_append, reportMarks_append, reportMarks_append, hdm, hbm]
    simp [reportMarks]
  · rw [countQl_append, countQl_append, countQl_append, hdc, hbc]
    simp [countQl]

/-- C7 amended-claim witness: the same PDF supplied twice is attempted and
reported twice, in order. -/
theorem C7_per_file_reporting_witness :
    reportMarks (mainRun envOne extOk argsDup).1 =
      (discoverAll envOne argsDup.inputs).1.map (fun p => "  " ++ pathName p ++ " -> ") ∧
    countQl (mainRun envOne extOk argsDup).1 = (discoverAll envOne argsDup.inputs).1.length :=
  C7_per_file_reporting envOne extOk argsDup (by decide)

/-! ### C8: converting the same PDF twice -/

/-- A successful conversion's returned path is `<od>/<stem>.png`. -/
theorem convert_some_path (ext : Ext) (pdf od : Path) (size : Int) (p : Path)
    (h : (convert_pdf_to_png ext pdf od size).2 = some p) :
    p = od ++ [pyStem (pathName pdf) ++ ".png"] := by
  by_cases h1 : (ext.qlmanage pdf size).returncode = 0 <;>
    by_cases h2 : ext.qlProduces pdf size = true <;>
    simp_all [convert_pdf_to_png]

/-- C8: two successful conversions of the same PDF with the same output
directory return the identical output path, and after both, the file at
that path is the one the second conversion moved there — the second move
overwrote the first's output (the external worlds of the two runs may
differ arbitrarily). -/
theorem C8_second_run_overwrites (ext₁ ext₂ : Ext) (pdf od : Path) (size : Int)
    (fs₀ : Fs) (p₁ p₂ : Path)
    (h₁ : (convert_pdf_to_png ext₁ pdf od size).2 = some p₁)
    (h₂ : (convert_pdf_to_png ext₂ pdf od size).2 = some p₂) :
    p₁ = p₂ ∧
    applyConvert ext₂ pdf od size (applyConvert ext₁ pdf od size fs₀) p₂ =
      some (ext₂.rendered pdf size) := by
  have e₁ := convert_some_path ext₁ pdf od size p₁ h₁
  have e₂ := convert_some_path ext₂ pdf od size p₂ h₂
  subst e₁; subst e₂
  refine ⟨rfl, ?_⟩
  have hrc : ¬ (ext₂.qlmanage pdf size).returncode ≠ 0 := by
    intro hne
    simp [convert_pdf_to_png, if_pos hne] at h₂
  have hpr : ext₂.qlProduces pdf size = true := by
    by_contra hne
    simp [convert_pdf_to_png, if_neg hrc] at h₂
    simp_all
  simp [applyConvert, hrc, hpr]

/-- C8 witness: two concrete runs (rendering content ids 1 then 2) both
return `out/a.png`, and the surviving content there is the second run's. -/
theorem C8_second_run_overwrites_witness :
    (convert_pdf_to_png extOk ["a.pdf"] ["out"] 2400).2 = some ["out", "a.png"] ∧
    (convert_pdf_to_png extOk2 ["a.pdf"] ["out"] 2400).2 = some ["out", "a.png"] ∧
    (["out", "a.png"] = (["out", "a.png"] : Path) ∧
      applyConvert extOk2 ["a.pdf"] ["out"] 2400
          (applyConvert extOk ["a.pdf"] ["out"] 2400 (fun _ => none)) ["out", "a.png"] =
        some (extOk2.rendered ["a.pdf"] 2400)) :=
  ⟨by decide, by decide,
    C8_second_run_overwrites extOk extOk2 ["a.pdf"] ["out"] 2400 (fun _ => none)
      ["out", "a.png"] ["out", "a.png"] (by decide) (by decide)⟩

/-! ### C9: the size option is passed through unchecked -/

/-- Every branch of the conversion step starts with the same `qlmanage`
invocation, whose size argument is the decimal rendering of `size`. -/
theorem convert_runQl_head (ext : Ext) (pdf od : Path) (size : Int) :
    (convert_pdf_to_png ext pdf od size).1.head? =
      some (.runQl ["qlmanage", "-t", "-s", toString size, "-o",
        pathStr ext.tmpdir, pathStr pdf]) := by
  by_cases h1 : (ext.qlmanage pdf size).returncode = 0 <;>
    by_cases h2 : ext.qlProduces pdf size = true <;>
    simp_all [convert_pdf_to_png]

/-- The `qlmanage` invocation of each per-file block, verbatim. -/
theorem processOne_runQl_mem (ext : Ext) (args : Args) (pdf : Path) :
    Event.runQl ["qlmanage", "-t", "-s", toString args.size, "-o",
        pathStr ext.tmpdir, pathStr pdf] ∈ (processOne ext args pdf).1 := by
  have hh := convert_runQl_head ext pdf (outDirFor args pdf) args.size
  cases hconv : convert_pdf_to_png ext pdf (outDirFor args pdf) args.size with
  | mk cev res =>
      rw [hconv] at hh
      cases cev with
      | nil => cases hh
      | cons e t =>
          have he : e = Event.runQl ["qlmanage", "-t", "-s", toString args.size, "-o",
              pathStr ext.tmpdir, pathStr pdf] := by
            simpa using hh
          cases res <;> simp [processOne, hconv, he]

/-- C9: the size is an arbitrary integer — there is no positivity check
anywhere — and whatever integer it is (zero and negative values included),
its decimal string is passed unchanged as the `-s` argument of the render
command, both in the conversion step itself and in the run's trace for
every discovered PDF. -/
theorem C9_size_passthrough (env : Env) (ext : Ext) (args : Args)
    (od pdf : Path) (h : pdf ∈ (discoverAll env args.inputs).1) :
    (convert_pdf_to_png ext pdf od args.size).1.head? =
      some (.runQl ["qlmanage", "-t", "-s", toString args.size, "-o",
        pathStr ext.tmpdir, pathStr pdf]) ∧
    Event.runQl ["qlmanage", "-t", "-s", toString args.size, "-o",
        pathStr ext.tmpdir, pathStr pdf] ∈ (mainRun env ext args).1 := by
  refine ⟨convert_runQl_head ext pdf od args.size, ?_⟩
  obtain ⟨pre, post, htr⟩ := processOne_block_occurs env ext args pdf h
  rw [htr]
  have hm := processOne_runQl_mem ext args pdf
  simp only [List.mem_append]
  exact Or.inl (Or.inr hm)

/-- C9 witness: with `-s -3` and with `-s 0` the render command receives
`"-3"` and `"0"` respectively. -/
theorem C9_size_passthrough_witness :
    ((convert_pdf_to_png extOk ["a.pdf"] ["out"] argsNeg.size).1.head? =
        some (.runQl ["qlmanage", "-t", "-s", "-3", "-o",
          pathStr extOk.tmpdir, pathStr ["a.pdf"]]) ∧
      Event.runQl ["qlmanage", "-t", "-s", "-3", "-o",
          pathStr extOk.tmpdir, pathStr ["a.pdf"]] ∈ (mainRun envOne extOk argsNeg).1) ∧
    ((convert_pdf_to_png extOk ["a.pdf"] ["out"] argsZero.size).1.head? =
        some (.runQl ["qlmanage", "-t", "-s", "0", "-o",
          pathStr extOk.tmpdir, pathStr ["a.pdf"]]) ∧
      Event.runQl ["qlmanage", "-t", "-s", "0", "-o",
          pathStr extOk.tmpdir, pathStr ["a.pdf"]] ∈ (mainRun envOne extOk argsZero).1) :=
  ⟨C9_size_passthrough envOne extOk argsNeg ["out"] ["a.pdf"] (by decide),
    C9_size_passthrough envOne extOk argsZero ["out"] ["a.pdf"] (by decide)⟩

/-! ### C10: the output directory is created even when conversion fails -/

/-- C10: for every processed PDF, creating the resolved output directory
(with any missing parents) is the block's very first action, before the
conversion is attempted (a `qlmanage` invocation follows it); and when the
conversion fails, no move happens anywhere in the block — the freshly
created directory receives no file. -/
theorem C10_mkdir_before_attempt (ext : Ext) (args : Args) (pdf : Path) :
    (processOne ext args pdf).1.head? = some (.mkdirP (outDirFor args pdf)) ∧
    (∃ c, Event.runQl c ∈ (processOne ext args pdf).1.tail) ∧
    ((processOne ext args pdf).2 = none →
      ∀ s d, Event.move s d ∉ (processOne ext args pdf).1) := by
  by_cases h1 : (ext.qlmanage pdf args.size).returncode = 0 <;>
    by_cases h2 : ext.qlProduces pdf args.size = true <;>
    simp_all [processOne, convert_pdf_to_png]

/-- C10 witness: a run where `qlmanage` exits 0 but leaves no output, with
`-o out`: the block opens by creating `out`, attempts the conversion, fails
and moves nothing. -/
theorem C10_mkdir_before_attempt_witness :
    (processOne extMiss argsNeg ["a.pdf"]).2 = none ∧
    ((processOne extMiss argsNeg ["a.pdf"]).1.head? =
        some (.mkdirP (outDirFor argsNeg ["a.pdf"])) ∧
      (∃ c, Event.runQl c ∈ (processOne extMiss argsNeg ["a.pdf"]).1.tail) ∧
      ((processOne extMiss argsNeg ["a.pdf"]).2 = none →
        ∀ s d, Event.move s d ∉ (processOne extMiss argsNeg ["a.pdf"]).1)) :=
  ⟨by decide, C10_mkdir_before_attempt extMiss argsNeg ["a.pdf"]⟩

end PdfToPng
